import Mathlib

/-!
Shallow embedding of the data-access layer (`app/database.py`, class
`Database`) of the AvatarCommerce repository, and proofs of the behavioural
claims about it.

Modelling choices, all taken from the source:

* A backend row is a Python dict, modelled as an insertion-ordered
  association list `Dict := List (String × Val)`; `dset` updates an existing
  key in place and appends a fresh key at the end, like CPython dicts.
* The backend (Supabase) holds three tables of rows and a blob store
  (path-addressed byte objects in the single bucket `influencer-assets`,
  modelled as a path-to-bytes association list with overwriting upload, per
  the spec's description of the external blob interface).
* Every backend round trip (`.execute()`, `upload`, `download`) may raise an
  exception.  Which calls raise is an input: a fault schedule `List Bool`,
  one flag consumed per backend call, `true` meaning "this call raises".
  A raising call leaves the table data unchanged (each statement is a single
  request the backend serialises).
* Python exceptions are modelled with an exception-over-state monad
  `M α := St → Except Err α × St`: state changes made before a raise
  survive it, as in Python.  `pyTry body handler` is `try/except Exception`.
* Fresh UUIDs (`uuid.uuid4()`) are drawn from an input stream in the state.
* The blob-store `download` primitive counts the requests it issues, so
  that "no download request was made" is observable.
* The table-update primitive records each payload it is given, so that
  "the map sent to the backend" is observable.
-/

/-- A Python value as it appears in the dict rows this layer handles. -/
inductive Val where
  | str  : String → Val
  | bool : Bool → Val
deriving DecidableEq, Repr

/-- Python truthiness of `d.get(k)`: `None` (absent), `""` and `False` are
falsy. -/
def truthyOpt : Option Val → Bool
  | none => false
  | some (Val.str s) => s ≠ ""
  | some (Val.bool b) => b

/-- f-string rendering of a value. -/
def valToString : Val → String
  | Val.str s => s
  | Val.bool b => if b then "True" else "False"

/-- A Python dict: insertion-ordered association list. -/
abbrev Dict := List (String × Val)

/-- `d.get(k)` / `k in d` lookup. -/
def dget (d : Dict) (k : String) : Option Val :=
  (d.find? (fun p => p.1 = k)).map (fun p => p.2)

/-- `k in d`. -/
def hasKey (d : Dict) (k : String) : Bool :=
  (d.find? (fun p => p.1 = k)).isSome

/-- `d[k] = v`: replace in place if the key exists, else append. -/
def dset (d : Dict) (k : String) (v : Val) : Dict :=
  if hasKey d k then d.map (fun p => if p.1 = k then (k, v) else p)
  else d ++ [(k, v)]

/-- Apply an UPDATE payload to one row: set every column of the payload. -/
def dmerge (row upd : Dict) : Dict :=
  upd.foldl (fun acc p => dset acc p.1 p.2) row

/-- The three entity tables of the schema. -/
inductive Tbl where
  | influencers | affiliate_links | chat_interactions
deriving DecidableEq, Repr

/-- The backend's visible state. -/
structure DBState where
  influencers : List Dict
  affiliate_links : List Dict
  chat_interactions : List Dict
  /-- blob store: object path within bucket `influencer-assets` to bytes. -/
  storage : List (String × List Nat)
  /-- number of blob-download requests issued so far (observation). -/
  downloads : Nat
  /-- payloads handed to the table-update endpoint, oldest first
  (observation). -/
  sentUpdates : List Dict
deriving DecidableEq, Repr

def DBState.getTable (db : DBState) : Tbl → List Dict
  | Tbl.influencers => db.influencers
  | Tbl.affiliate_links => db.affiliate_links
  | Tbl.chat_interactions => db.chat_interactions

def DBState.setTable (db : DBState) : Tbl → List Dict → DBState
  | Tbl.influencers, rows => { db with influencers := rows }
  | Tbl.affiliate_links, rows => { db with affiliate_links := rows }
  | Tbl.chat_interactions, rows => { db with chat_interactions := rows }

/-- Full execution state: backend data, remaining fault schedule, remaining
fresh-uuid stream. -/
structure St where
  db : DBState
  faults : List Bool
  uuids : List String
deriving DecidableEq, Repr

/-- A Python exception. -/
inductive Err where
  | backend : Err
  /-- `AttributeError` from attribute access on `None`. -/
  | attrError : Err
deriving DecidableEq, Repr

/-- Exception monad over state: raising keeps the state reached so far. -/
def M (α : Type) : Type := St → Except Err α × St

def M.pure {α : Type} (a : α) : M α := fun s => (Except.ok a, s)

def M.bind {α β : Type} (x : M α) (f : α → M β) : M β := fun s =>
  match x s with
  | (Except.ok a, s') => f a s'
  | (Except.error e, s') => (Except.error e, s')

instance : Monad M where
  pure := M.pure
  bind := M.bind

/-- `raise e`. -/
def throwM {α : Type} (e : Err) : M α := fun s => (Except.error e, s)

/-- `try: body ... except Exception as e: handler e`. -/
def pyTry {α : Type} (body : M α) (handler : Err → M α) : M α := fun s =>
  match body s with
  | (Except.ok a, s') => (Except.ok a, s')
  | (Except.error e, s') => handler e s'

/-- Consume the next fault flag (an exhausted schedule means no fault). -/
def takeFault : M Bool := fun s =>
  match s.faults with
  | [] => (Except.ok false, s)
  | b :: rest => (Except.ok b, { s with faults := rest })

/-- Draw the next fresh uuid. -/
def freshUuid : M String := fun s =>
  match s.uuids with
  | [] => (Except.ok "00000000-0000-0000-0000-000000000000", s)
  | u :: rest => (Except.ok u, { s with uuids := rest })

/-- `table(t).insert(row).execute()`: appends the row, responds with the
inserted rows; raises on a backend fault, leaving the tables unchanged. -/
def tableInsert (t : Tbl) (row : Dict) : M (List Dict) := do
  let f ← takeFault
  if f then throwM Err.backend
  else fun s =>
    (Except.ok [row], { s with db := s.db.setTable t (s.db.getTable t ++ [row]) })

/-- `table(t).select('*').eq(k, v).execute()`. -/
def tableSelectEq (t : Tbl) (k v : String) : M (List Dict) := do
  let f ← takeFault
  if f then throwM Err.backend
  else fun s =>
    (Except.ok ((s.db.getTable t).filter (fun row => dget row k = some (Val.str v))), s)

/-- `table(t).select('*').execute()`. -/
def tableSelectAll (t : Tbl) : M (List Dict) := do
  let f ← takeFault
  if f then throwM Err.backend
  else fun s => (Except.ok (s.db.getTable t), s)

/-- `table(t).update(upd).eq(k, v).execute()`: the payload is recorded as
sent, then the call either raises or sets the payload's columns on every
matching row. -/
def tableUpdateEq (t : Tbl) (upd : Dict) (k v : String) : M Unit := fun s =>
  let s := { s with db := { s.db with sentUpdates := s.db.sentUpdates ++ [upd] } }
  (do
    let f ← takeFault
    if f then throwM Err.backend
    else fun s =>
      (Except.ok (),
       { s with db := s.db.setTable t ((s.db.getTable t).map
           (fun row => if dget row k = some (Val.str v) then dmerge row upd else row)) })) s

/-- `table(t).delete().eq(k, v).execute()`. -/
def tableDeleteEq (t : Tbl) (k v : String) : M Unit := do
  let f ← takeFault
  if f then throwM Err.backend
  else fun s =>
    (Except.ok (),
     { s with db := s.db.setTable t ((s.db.getTable t).filter
         (fun row => ¬ dget row k = some (Val.str v))) })

/-- Overwrite the stored bytes at a path. -/
def storeSet (st : List (String × List Nat)) (path : String) (bytes : List Nat) :
    List (String × List Nat) :=
  if (st.find? (fun p => p.1 = path)).isSome then
    st.map (fun p => if p.1 = path then (path, bytes) else p)
  else st ++ [(path, bytes)]

/-- `storage.from_('influencer-assets').upload(path, bytes)`: path-addressed
overwriting upload, per the spec's blob-store interface. -/
def storageUpload (path : String) (bytes : List Nat) : M Unit := do
  let f ← takeFault
  if f then throwM Err.backend
  else fun s =>
    (Except.ok (), { s with db := { s.db with storage := storeSet s.db.storage path bytes } })

/-- `storage.from_('influencer-assets').download(path)`: issues a request
(counted), then either raises on a fault, returns the bytes, or raises if no
object lives at the path. -/
def storageDownload (path : String) : M (List Nat) := fun s =>
  let s := { s with db := { s.db with downloads := s.db.downloads + 1 } }
  (do
    let f ← takeFault
    if f then throwM Err.backend
    else fun s =>
      match (s.db.storage.find? (fun (p : String × List Nat) => p.1 = path)).map
          (fun (p : String × List Nat) => p.2) with
      | some bytes => (Except.ok bytes, s)
      | none => (Except.error Err.backend, s)) s

/-! ## The `Database` methods, transcribed from `app/database.py`. -/

/-- `Database.create_influencer`. -/
def create_influencer (influencer_data : Dict) : M (Option Dict) :=
  let required_fields := ["id", "username", "email", "password_hash"]
  if ¬ required_fields.all (fun f => hasKey influencer_data f) then M.pure none
  else
    let username := (dget influencer_data "username").getD (Val.str "")
    let influencer_data :=
      dset influencer_data "chat_page_url" (Val.str ("/chat/" ++ valToString username))
    pyTry
      (do
        let response ← tableInsert Tbl.influencers influencer_data
        M.pure response.head?)
      (fun _ => M.pure none)

/-- `Database.get_influencer_by_username`. -/
def get_influencer_by_username (username : String) : M (Option Dict) :=
  pyTry
    (do
      let response ← tableSelectEq Tbl.influencers "username" username
      M.pure response.head?)
    (fun _ => M.pure none)

/-- `Database.get_influencer_by_email`. -/
def get_influencer_by_email (email : String) : M (Option Dict) :=
  pyTry
    (do
      let response ← tableSelectEq Tbl.influencers "email" email
      M.pure response.head?)
    (fun _ => M.pure none)

/-- `Database.get_influencer`. -/
def get_influencer (influencer_id : String) : M (Option Dict) :=
  pyTry
    (do
      let response ← tableSelectEq Tbl.influencers "id" influencer_id
      M.pure response.head?)
    (fun _ => M.pure none)

/-- `Database.update_influencer`.  The caller's dict is mutated in place by
`updates['updated_at'] = 'now()'`; its value after the call is
`callerUpdatesAfter updates` below. -/
def update_influencer (influencer_id : String) (updates : Dict) : M Bool :=
  if updates.isEmpty then M.pure false
  else
    pyTry
      (do
        let updates := dset updates "updated_at" (Val.str "now()")
        tableUpdateEq Tbl.influencers updates "id" influencer_id
        M.pure true)
      (fun _ => M.pure false)

/-- The caller-supplied `updates` dict object as `update_influencer` leaves
it: unchanged on the empty-map early return, otherwise with
`updated_at = 'now()'` set (the mutation precedes the backend call and
survives a backend exception). -/
def callerUpdatesAfter (updates : Dict) : Dict :=
  if updates.isEmpty then updates else dset updates "updated_at" (Val.str "now()")

/-- `Database.delete_influencer`. -/
def delete_influencer (influencer_id : String) : M Bool :=
  pyTry
    (do
      tableDeleteEq Tbl.influencers "id" influencer_id
      M.pure true)
    (fun _ => M.pure false)

/-- `Database.get_all_influencers`. -/
def get_all_influencers : M (List Dict) :=
  pyTry
    (do
      let response ← tableSelectAll Tbl.influencers
      M.pure response)
    (fun _ => M.pure [])

/-- `Database.store_original_asset`. -/
def store_original_asset (influencer_id : String) (file_bytes : List Nat)
    (file_name : String) : M (Option String) :=
  pyTry
    (do
      let file_path := "original_avatars/" ++ influencer_id ++ "/" ++ file_name
      storageUpload file_path file_bytes
      let _ ← update_influencer influencer_id [("original_asset_path", Val.str file_path)]
      M.pure (some file_path))
    (fun _ => M.pure none)

/-- `Database.get_original_asset`. -/
def get_original_asset (influencer_id : String) : M (Option (List Nat)) :=
  pyTry
    (do
      let influencer ← get_influencer influencer_id
      match influencer with
      | none => M.pure none
      | some d =>
        if ¬ truthyOpt (dget d "original_asset_path") then M.pure none
        else do
          let file_path := valToString ((dget d "original_asset_path").getD (Val.str ""))
          let bytes ← storageDownload file_path
          M.pure (some bytes))
    (fun _ => M.pure none)

/-- `Database.add_affiliate_link`. -/
def add_affiliate_link (influencer_id platform affiliate_id : String) :
    M (Option Dict) :=
  pyTry
    (do
      let uid ← freshUuid
      let affiliate_data : Dict :=
        [("id", Val.str uid), ("influencer_id", Val.str influencer_id),
         ("platform", Val.str platform), ("affiliate_id", Val.str affiliate_id)]
      let response ← tableInsert Tbl.affiliate_links affiliate_data
      let influencer ← get_influencer influencer_id
      -- `influencer.get('affiliate_id')` raises AttributeError when
      -- `get_influencer` returned None
      let hasDefault ← match influencer with
        | none => throwM Err.attrError
        | some d => M.pure (truthyOpt (dget d "affiliate_id"))
      if ¬ hasDefault then do
        let _ ← update_influencer influencer_id [("affiliate_id", Val.str affiliate_id)]
        M.pure response.head?
      else M.pure response.head?)
    (fun _ => M.pure none)

/-- `Database.get_affiliate_links`. -/
def get_affiliate_links (influencer_id : String) : M (List Dict) :=
  pyTry
    (do
      let response ← tableSelectEq Tbl.affiliate_links "influencer_id" influencer_id
      M.pure response)
    (fun _ => M.pure [])

/-- `Database.get_primary_affiliate_id`. -/
def get_primary_affiliate_id (influencer_id : String) : M (Option Val) :=
  pyTry
    (do
      let influencer ← get_influencer influencer_id
      match influencer with
      | some d => M.pure (dget d "affiliate_id")
      | none => M.pure none)
    (fun _ => M.pure none)

/-- `Database.log_chat_interaction`. -/
def log_chat_interaction (influencer_id user_message bot_response : String)
    (product_recommendations : Bool) : M (Option Dict) :=
  pyTry
    (do
      let uid ← freshUuid
      let interaction_data : Dict :=
        [("id", Val.str uid), ("influencer_id", Val.str influencer_id),
         ("user_message", Val.str user_message),
         ("bot_response", Val.str bot_response),
         ("product_recommendations", Val.bool product_recommendations)]
      let response ← tableInsert Tbl.chat_interactions interaction_data
      M.pure response.head?)
    (fun _ => M.pure none)

/-! ## Proof infrastructure -/

/-- The call completed without a propagating exception. -/
def isOkB {α : Type} : Except Err α → Bool
  | Except.ok _ => true
  | Except.error _ => false

@[simp] theorem bind_is_M_bind {α β : Type} :
    (Bind.bind : M α → (α → M β) → M β) = M.bind := rfl

@[simp] theorem M_bind_apply {α β : Type} (x : M α) (f : α → M β) (s : St) :
    M.bind x f s =
      match x s with
      | (Except.ok a, s') => f a s'
      | (Except.error e, s') => (Except.error e, s') := rfl

@[simp] theorem M_pure_apply {α : Type} (a : α) (s : St) :
    M.pure a s = (Except.ok a, s) := rfl

@[simp] theorem pyTry_apply {α : Type} (body : M α) (handler : Err → M α) (s : St) :
    pyTry body handler s =
      match body s with
      | (Except.ok a, s') => (Except.ok a, s')
      | (Except.error e, s') => handler e s' := rfl

@[simp] theorem throwM_apply {α : Type} (e : Err) (s : St) :
    (throwM e : M α) s = (Except.error e, s) := rfl

@[simp] theorem takeFault_nil (db : DBState) (u : List String) :
    takeFault ⟨db, [], u⟩ = (Except.ok false, ⟨db, [], u⟩) := rfl

@[simp] theorem takeFault_cons (db : DBState) (b : Bool) (rest : List Bool)
    (u : List String) :
    takeFault ⟨db, b :: rest, u⟩ = (Except.ok b, ⟨db, rest, u⟩) := rfl

@[simp] theorem freshUuid_nil (db : DBState) (f : List Bool) :
    freshUuid ⟨db, f, []⟩ =
      (Except.ok "00000000-0000-0000-0000-000000000000", ⟨db, f, []⟩) := rfl

@[simp] theorem freshUuid_cons (db : DBState) (f : List Bool) (u : String)
    (us : List String) :
    freshUuid ⟨db, f, u :: us⟩ = (Except.ok u, ⟨db, f, us⟩) := rfl

/-- Anything wrapped in `try/except` whose handler returns a plain value
completes without a propagating exception. -/
theorem pyTry_const_handler_ok {α : Type} (body : M α) (a : α) (s : St) :
    isOkB (pyTry body (fun _ => M.pure a) s).1 = true := by
  simp only [pyTry_apply]
  rcases h : body s with ⟨r, s'⟩
  cases r <;> simp [isOkB]

@[simp] theorem tableInsert_nil (t : Tbl) (row : Dict) (db : DBState)
    (u : List String) :
    tableInsert t row ⟨db, [], u⟩ =
      (Except.ok [row], ⟨db.setTable t (db.getTable t ++ [row]), [], u⟩) := rfl

@[simp] theorem tableInsert_cons (t : Tbl) (row : Dict) (db : DBState)
    (b : Bool) (rest : List Bool) (u : List String) :
    tableInsert t row ⟨db, b :: rest, u⟩ =
      if b then (Except.error Err.backend, ⟨db, rest, u⟩)
      else (Except.ok [row], ⟨db.setTable t (db.getTable t ++ [row]), rest, u⟩) := by
  cases b <;> rfl

@[simp] theorem tableSelectEq_nil (t : Tbl) (k v : String) (db : DBState)
    (u : List String) :
    tableSelectEq t k v ⟨db, [], u⟩ =
      (Except.ok ((db.getTable t).filter (fun row => dget row k = some (Val.str v))),
       ⟨db, [], u⟩) := rfl

@[simp] theorem tableSelectEq_cons (t : Tbl) (k v : String) (db : DBState)
    (b : Bool) (rest : List Bool) (u : List String) :
    tableSelectEq t k v ⟨db, b :: rest, u⟩ =
      if b then (Except.error Err.backend, ⟨db, rest, u⟩)
      else
        (Except.ok ((db.getTable t).filter (fun row => dget row k = some (Val.str v))),
         ⟨db, rest, u⟩) := by
  cases b <;> rfl

@[simp] theorem tableSelectAll_nil (t : Tbl) (db : DBState) (u : List String) :
    tableSelectAll t ⟨db, [], u⟩ = (Except.ok (db.getTable t), ⟨db, [], u⟩) := rfl

@[simp] theorem tableSelectAll_cons (t : Tbl) (db : DBState) (b : Bool)
    (rest : List Bool) (u : List String) :
    tableSelectAll t ⟨db, b :: rest, u⟩ =
      if b then (Except.error Err.backend, ⟨db, rest, u⟩)
      else (Except.ok (db.getTable t), ⟨db, rest, u⟩) := by
  cases b <;> rfl

/-- The pure effect of a successful UPDATE on a table. -/
def applyUpdate (rows : List Dict) (upd : Dict) (k v : String) : List Dict :=
  rows.map (fun row => if dget row k = some (Val.str v) then dmerge row upd else row)

/-- Record a payload as sent to the update endpoint. -/
def logSent (db : DBState) (upd : Dict) : DBState :=
  { db with sentUpdates := db.sentUpdates ++ [upd] }

@[simp] theorem tableUpdateEq_nil (t : Tbl) (upd : Dict) (k v : String)
    (db : DBState) (u : List String) :
    tableUpdateEq t upd k v ⟨db, [], u⟩ =
      (Except.ok (),
       ⟨(logSent db upd).setTable t (applyUpdate ((logSent db upd).getTable t) upd k v),
        [], u⟩) := rfl

@[simp] theorem tableUpdateEq_cons (t : Tbl) (upd : Dict) (k v : String)
    (db : DBState) (b : Bool) (rest : List Bool) (u : List String) :
    tableUpdateEq t upd k v ⟨db, b :: rest, u⟩ =
      if b then (Except.error Err.backend, ⟨logSent db upd, rest, u⟩)
      else
        (Except.ok (),
         ⟨(logSent db upd).setTable t (applyUpdate ((logSent db upd).getTable t) upd k v),
          rest, u⟩) := by
  cases b <;> rfl

@[simp] theorem tableDeleteEq_nil (t : Tbl) (k v : String) (db : DBState)
    (u : List String) :
    tableDeleteEq t k v ⟨db, [], u⟩ =
      (Except.ok (),
       ⟨db.setTable t ((db.getTable t).filter (fun row => ¬ dget row k = some (Val.str v))),
        [], u⟩) := rfl

@[simp] theorem tableDeleteEq_cons (t : Tbl) (k v : String) (db : DBState)
    (b : Bool) (rest : List Bool) (u : List String) :
    tableDeleteEq t k v ⟨db, b :: rest, u⟩ =
      if b then (Except.error Err.backend, ⟨db, rest, u⟩)
      else
        (Except.ok (),
         ⟨db.setTable t ((db.getTable t).filter (fun row => ¬ dget row k = some (Val.str v))),
          rest, u⟩) := by
  cases b <;> rfl

@[simp] theorem storageUpload_nil (path : String) (bytes : List Nat)
    (db : DBState) (u : List String) :
    storageUpload path bytes ⟨db, [], u⟩ =
      (Except.ok (), ⟨{ db with storage := storeSet db.storage path bytes }, [], u⟩) := rfl

@[simp] theorem storageUpload_cons (path : String) (bytes : List Nat)
    (db : DBState) (b : Bool) (rest : List Bool) (u : List String) :
    storageUpload path bytes ⟨db, b :: rest, u⟩ =
      if b then (Except.error Err.backend, ⟨db, rest, u⟩)
      else (Except.ok (), ⟨{ db with storage := storeSet db.storage path bytes }, rest, u⟩) := by
  cases b <;> rfl

/-- Record a blob-download request. -/
def logDownload (db : DBState) : DBState := { db with downloads := db.downloads + 1 }

@[simp] theorem storageDownload_nil (path : String) (db : DBState)
    (u : List String) :
    storageDownload path ⟨db, [], u⟩ =
      (match ((logDownload db).storage.find? (fun (p : String × List Nat) => p.1 = path)).map
          (fun (p : String × List Nat) => p.2) with
       | some bytes => (Except.ok bytes, ⟨logDownload db, ([] : List Bool), u⟩)
       | none => (Except.error Err.backend, ⟨logDownload db, ([] : List Bool), u⟩)) := rfl

@[simp] theorem storageDownload_cons (path : String) (db : DBState) (b : Bool)
    (rest : List Bool) (u : List String) :
    storageDownload path ⟨db, b :: rest, u⟩ =
      if b then (Except.error Err.backend, ⟨logDownload db, rest, u⟩)
      else
        (match ((logDownload db).storage.find? (fun (p : String × List Nat) => p.1 = path)).map
            (fun (p : String × List Nat) => p.2) with
         | some bytes => (Except.ok bytes, ⟨logDownload db, rest, u⟩)
         | none => (Except.error Err.backend, ⟨logDownload db, rest, u⟩)) := by
  cases b <;> rfl

/-! ## C1: global swallow-and-log policy -/

theorem create_influencer_ok (s : St) (d : Dict) :
    isOkB (create_influencer d s).1 = true := by
  unfold create_influencer
  split
  · simp [isOkB]
  · exact pyTry_const_handler_ok _ _ _

theorem update_influencer_ok (s : St) (x : String) (d : Dict) :
    isOkB (update_influencer x d s).1 = true := by
  unfold update_influencer
  split
  · simp [isOkB]
  · exact pyTry_const_handler_ok _ _ _

/-- C1: every public operation of `Database`, for every backend state, every
fault schedule (so in particular when backend calls raise) and all
arguments, completes without a propagating exception; and whenever the
backend raises on the operation's first round trip, the operation returns
its sentinel (`none` for single-value results, `[]` for list results,
`false` for boolean results). -/
theorem claim_c1_swallow_and_log :
    ((∀ s d, isOkB (create_influencer d s).1 = true) ∧
     (∀ s x, isOkB (get_influencer_by_username x s).1 = true) ∧
     (∀ s x, isOkB (get_influencer_by_email x s).1 = true) ∧
     (∀ s x, isOkB (get_influencer x s).1 = true) ∧
     (∀ s x d, isOkB (update_influencer x d s).1 = true) ∧
     (∀ s x, isOkB (delete_influencer x s).1 = true) ∧
     (∀ s, isOkB (get_all_influencers s).1 = true) ∧
     (∀ s x b f, isOkB (store_original_asset x b f s).1 = true) ∧
     (∀ s x, isOkB (get_original_asset x s).1 = true) ∧
     (∀ s x p a, isOkB (add_affiliate_link x p a s).1 = true) ∧
     (∀ s x, isOkB (get_affiliate_links x s).1 = true) ∧
     (∀ s x, isOkB (get_primary_affiliate_id x s).1 = true) ∧
     (∀ s x m r b, isOkB (log_chat_interaction x m r b s).1 = true)) ∧
    (∀ (db : DBState) (rest : List Bool) (us : List String),
     (∀ d, (create_influencer d ⟨db, true :: rest, us⟩).1 = Except.ok none) ∧
     (∀ x, (get_influencer_by_username x ⟨db, true :: rest, us⟩).1 = Except.ok none) ∧
     (∀ x, (get_influencer_by_email x ⟨db, true :: rest, us⟩).1 = Except.ok none) ∧
     (∀ x, (get_influencer x ⟨db, true :: rest, us⟩).1 = Except.ok none) ∧
     (∀ x d, (update_influencer x d ⟨db, true :: rest, us⟩).1 = Except.ok false) ∧
     (∀ x, (delete_influencer x ⟨db, true :: rest, us⟩).1 = Except.ok false) ∧
     ((get_all_influencers ⟨db, true :: rest, us⟩).1 = Except.ok []) ∧
     (∀ x b f, (store_original_asset x b f ⟨db, true :: rest, us⟩).1 = Except.ok none) ∧
     (∀ x, (get_original_asset x ⟨db, true :: rest, us⟩).1 = Except.ok none) ∧
     (∀ x p a, (add_affiliate_link x p a ⟨db, true :: rest, us⟩).1 = Except.ok none) ∧
     (∀ x, (get_affiliate_links x ⟨db, true :: rest, us⟩).1 = Except.ok []) ∧
     (∀ x, (get_primary_affiliate_id x ⟨db, true :: rest, us⟩).1 = Except.ok none) ∧
     (∀ x m r b, (log_chat_interaction x m r b ⟨db, true :: rest, us⟩).1 = Except.ok none)) := by
  refine ⟨⟨create_influencer_ok, ?_, ?_, ?_, update_influencer_ok, ?_, ?_, ?_, ?_, ?_, ?_, ?_, ?_⟩, ?_⟩
  · exact fun s x => pyTry_const_handler_ok _ _ _
  · exact fun s x => pyTry_const_handler_ok _ _ _
  · exact fun s x => pyTry_const_handler_ok _ _ _
  · exact fun s x => pyTry_const_handler_ok _ _ _
  · exact fun s => pyTry_const_handler_ok _ _ _
  · exact fun s x b f => pyTry_const_handler_ok _ _ _
  · exact fun s x => pyTry_const_handler_ok _ _ _
  · exact fun s x p a => pyTry_const_handler_ok _ _ _
  · exact fun s x => pyTry_const_handler_ok _ _ _
  · exact fun s x => pyTry_const_handler_ok _ _ _
  · exact fun s x m r b => pyTry_const_handler_ok _ _ _
  intro db rest us
  refine ⟨?_, ?_, ?_, ?_, ?_, ?_, ?_, ?_, ?_, ?_, ?_, ?_, ?_⟩
  · intro d
    unfold create_influencer
    split
    · rfl
    · simp
  · intro x; simp [get_influencer_by_username]
  · intro x; simp [get_influencer_by_email]
  · intro x; simp [get_influencer]
  · intro x d
    unfold update_influencer
    split
    · rfl
    · simp
  · intro x; simp [delete_influencer]
  · simp [get_all_influencers]
  · intro x b f; simp [store_original_asset]
  · intro x; simp [get_original_asset, get_influencer]
  · intro x p a
    cases us <;> simp [add_affiliate_link]
  · intro x; simp [get_affiliate_links]
  · intro x; simp [get_primary_affiliate_id, get_influencer]
  · intro x m r b
    cases us <;> simp [log_chat_interaction]

/-! ## Dictionary algebra -/

theorem hasKey_cons (k0 : String) (v0 : Val) (tl : Dict) (k : String) :
    hasKey ((k0, v0) :: tl) k = (decide (k0 = k) || hasKey tl k) := by
  by_cases h : k0 = k <;> simp [hasKey, List.find?, h]

theorem dget_cons (k0 : String) (v0 : Val) (tl : Dict) (k : String) :
    dget ((k0, v0) :: tl) k = if k0 = k then some v0 else dget tl k := by
  by_cases h : k0 = k <;> simp [dget, List.find?, h]

theorem dset_cons (k0 : String) (v0 : Val) (tl : Dict) (k : String) (v : Val) :
    dset ((k0, v0) :: tl) k v =
      if k0 = k then (k, v) :: tl.map (fun p => if p.1 = k then (k, v) else p)
      else (k0, v0) :: dset tl k v := by
  by_cases h : k0 = k
  · simp [dset, hasKey_cons, h]
  · by_cases htl : hasKey tl k = true
    · simp [dset, hasKey_cons, h, htl]
    · simp [dset, hasKey_cons, h, htl]

theorem dget_dset_self (d : Dict) (k : String) (v : Val) :
    dget (dset d k v) k = some v := by
  induction d with
  | nil => simp [dset, hasKey, dget]
  | cons hd tl ih =>
    rcases hd with ⟨k0, v0⟩
    rw [dset_cons]
    by_cases h : k0 = k
    · simp [h, dget_cons]
    · simp [h, dget_cons, ih]

theorem dget_mapSet_ne (d : Dict) (k : String) (v : Val) (k' : String)
    (h : k' ≠ k) :
    dget (d.map (fun p => if p.1 = k then (k, v) else p)) k' = dget d k' := by
  induction d with
  | nil => simp [dget]
  | cons hd tl ih =>
    rcases hd with ⟨k0, v0⟩
    by_cases h0 : k0 = k
    · subst h0
      simp only [List.map_cons, if_pos rfl]
      rw [dget_cons, dget_cons, if_neg (fun hh => h hh.symm),
        if_neg (fun hh => h hh.symm)]
      exact ih
    · simp only [List.map_cons, if_neg h0]
      rw [dget_cons, dget_cons]
      by_cases h1 : k0 = k' <;> simp [h1, ih]

theorem keys_mapSet (d : Dict) (k : String) (v : Val) :
    (d.map (fun p => if p.1 = k then (k, v) else p)).map Prod.fst
      = d.map Prod.fst := by
  induction d with
  | nil => rfl
  | cons hd tl ih =>
    rcases hd with ⟨k0, v0⟩
    by_cases h0 : k0 = k <;> simp [h0, ih]

theorem hasKey_eq_keys_contains (d : Dict) (k : String) :
    hasKey d k = (d.map Prod.fst).any (fun k0 => k0 = k) := by
  induction d with
  | nil => rfl
  | cons hd tl ih =>
    rcases hd with ⟨k0, v0⟩
    rw [hasKey_cons]
    by_cases h0 : k0 = k <;> simp [h0, ih]

theorem dget_append (d e : Dict) (k : String) :
    dget (d ++ e) k = (dget d k).or (dget e k) := by
  unfold dget
  rw [List.find?_append]
  rcases h : d.find? (fun p => p.1 = k) with _ | p <;> rw [h] <;> simp

theorem dget_eq_none_of_not_hasKey (d : Dict) (k : String)
    (h : hasKey d k = false) : dget d k = none := by
  unfold hasKey at h
  unfold dget
  rcases hf : d.find? (fun p => p.1 = k) with _ | p
  · rw [hf]; rfl
  · rw [hf] at h; simp at h

theorem dget_dset_ne (d : Dict) (k : String) (v : Val) (k' : String)
    (h : k' ≠ k) : dget (dset d k v) k' = dget d k' := by
  unfold dset
  by_cases hk : hasKey d k
  · rw [if_pos hk]
    exact dget_mapSet_ne d k v k' h
  · rw [if_neg hk, dget_append]
    have : dget [(k, v)] k' = none := by
      rw [dget_cons, if_neg (fun hh => h hh.symm)]; rfl
    rw [this]
    rcases hd : dget d k' with _ | w <;> simp

theorem hasKey_dset (d : Dict) (k : String) (v : Val) (k' : String) :
    hasKey (dset d k v) k' = (hasKey d k' || decide (k' = k)) := by
  unfold dset
  by_cases hk : hasKey d k
  · rw [if_pos hk, hasKey_eq_keys_contains, keys_mapSet, ← hasKey_eq_keys_contains]
    by_cases h1 : k' = k
    · subst h1; simp [hk]
    · simp [h1]
  · rw [if_neg hk]
    have : hasKey (d ++ [(k, v)]) k' = (hasKey d k' || hasKey [(k, v)] k') := by
      unfold hasKey
      rw [List.find?_append]
      rcases h : d.find? (fun p => p.1 = k') with _ | p <;> simp
    rw [this, hasKey_cons]
    have h0 : hasKey ([] : Dict) k' = false := rfl
    rw [h0]
    by_cases h1 : k = k'
    · subst h1; simp
    · rw [decide_eq_false h1, decide_eq_false (fun hh : k' = k => h1 hh.symm)]
      simp

@[simp] theorem dmerge_nil (r : Dict) : dmerge r [] = r := rfl

@[simp] theorem dmerge_cons (r : Dict) (k : String) (v : Val) (upd : Dict) :
    dmerge r ((k, v) :: upd) = dmerge (dset r k v) upd := rfl

theorem hasKey_eq_false_of_not_mem (d : Dict) (k : String)
    (h : k ∉ d.map Prod.fst) : hasKey d k = false := by
  rw [hasKey_eq_keys_contains]
  rw [List.any_eq_false]
  intro x hx
  simp only [decide_eq_true_eq]
  exact fun he => h (he ▸ hx)

theorem dget_dmerge_not_hasKey (r upd : Dict) (k : String)
    (h : hasKey upd k = false) : dget (dmerge r upd) k = dget r k := by
  induction upd generalizing r with
  | nil => rfl
  | cons hd tl ih =>
    rcases hd with ⟨k0, v0⟩
    rw [hasKey_cons] at h
    rcases Bool.or_eq_false_iff.mp h with ⟨h1, h2⟩
    rw [dmerge_cons, ih _ h2, dget_dset_ne]
    exact fun he => by simp [he] at h1

theorem dget_dmerge_nodup (r upd : Dict) (k : String) (v : Val)
    (hn : (upd.map Prod.fst).Nodup) (hv : dget upd k = some v) :
    dget (dmerge r upd) k = some v := by
  induction upd generalizing r with
  | nil => simp [dget] at hv
  | cons hd tl ih =>
    rcases hd with ⟨k0, v0⟩
    rw [List.map_cons, List.nodup_cons] at hn
    rw [dget_cons] at hv
    by_cases h0 : k0 = k
    · subst h0
      rw [if_pos rfl] at hv
      cases hv
      rw [dmerge_cons, dget_dmerge_not_hasKey _ _ _ (hasKey_eq_false_of_not_mem _ _ hn.1),
        dget_dset_self]
    · rw [if_neg h0] at hv
      rw [dmerge_cons]
      exact ih _ hn.2 hv

theorem applyUpdate_cons (r : Dict) (rows : List Dict) (upd : Dict) (k v : String) :
    applyUpdate (r :: rows) upd k v =
      (if dget r k = some (Val.str v) then dmerge r upd else r) :: applyUpdate rows upd k v := rfl

theorem filter_applyUpdate (rows : List Dict) (upd : Dict) (k v : String)
    (h : hasKey upd k = false) :
    (applyUpdate rows upd k v).filter (fun r => dget r k = some (Val.str v))
      = (rows.filter (fun r => dget r k = some (Val.str v))).map
          (fun r => dmerge r upd) := by
  induction rows with
  | nil => rfl
  | cons r rows ih =>
    rw [applyUpdate_cons]
    by_cases hp : dget r k = some (Val.str v)
    · have hq : dget (dmerge r upd) k = some (Val.str v) := by
        rw [dget_dmerge_not_hasKey _ _ _ h]; exact hp
      simp [hp, hq, ih]
    · simp [hp, ih]

theorem map_dget_applyUpdate (rows : List Dict) (upd : Dict) (k v key : String)
    (h : hasKey upd key = false) :
    (applyUpdate rows upd k v).map (fun r => dget r key)
      = rows.map (fun r => dget r key) := by
  induction rows with
  | nil => rfl
  | cons r rows ih =>
    rw [applyUpdate_cons, List.map_cons, List.map_cons, ih]
    by_cases hp : dget r k = some (Val.str v)
    · rw [if_pos hp, dget_dmerge_not_hasKey _ _ _ h]
    · rw [if_neg hp]

theorem storeSet_cons (p0 : String) (b0 : List Nat) (tl : List (String × List Nat))
    (p : String) (b : List Nat) :
    storeSet ((p0, b0) :: tl) p b =
      if p0 = p then (p, b) :: tl.map (fun q => if q.1 = p then (p, b) else q)
      else (p0, b0) :: storeSet tl p b := by
  by_cases h : p0 = p
  · simp [storeSet, List.find?, h]
  · by_cases htl : (tl.find? (fun q => q.1 = p)).isSome = true
    · simp [storeSet, List.find?, h, htl]
    · simp only [Bool.not_eq_true] at htl
      simp [storeSet, List.find?, h, htl]

theorem storeSet_lookup_self (st : List (String × List Nat)) (p : String)
    (b : List Nat) :
    ((storeSet st p b).find? (fun q => q.1 = p)).map
        (fun (q : String × List Nat) => q.2) = some b := by
  induction st with
  | nil => simp [storeSet, List.find?]
  | cons hd tl ih =>
    rcases hd with ⟨p0, b0⟩
    rw [storeSet_cons]
    by_cases h : p0 = p
    · simp [h, List.find?]
    · simp only [if_neg h]
      rw [List.find?_cons_of_neg _ (by simp [h])]
      exact ih

/-! ## Fault-free runs of the methods -/

/-- The row `create_influencer` sends: input plus the derived chat page. -/
def chatPageRow (d : Dict) : Dict :=
  dset d "chat_page_url"
    (Val.str ("/chat/" ++ valToString ((dget d "username").getD (Val.str ""))))

/-- The affiliate-link row built in `add_affiliate_link`. -/
def linkRow (uid iid p aid : String) : Dict :=
  [("id", Val.str uid), ("influencer_id", Val.str iid),
   ("platform", Val.str p), ("affiliate_id", Val.str aid)]

/-- The UPDATE payload promoting an affiliate id to the default. -/
def affPayload (aid : String) : Dict :=
  [("affiliate_id", Val.str aid), ("updated_at", Val.str "now()")]

/-- The UPDATE payload recording a stored asset path. -/
def assetPayload (p : String) : Dict :=
  [("original_asset_path", Val.str p), ("updated_at", Val.str "now()")]

theorem get_influencer_nil_run (iid : String) (db : DBState) (u : List String) :
    get_influencer iid ⟨db, [], u⟩ =
      (Except.ok ((db.influencers.filter
          (fun r => dget r "id" = some (Val.str iid))).head?), ⟨db, [], u⟩) := rfl

theorem create_influencer_missing_run (d : Dict) (s : St)
    (h : (["id", "username", "email", "password_hash"].all
        (fun f => hasKey d f)) = false) :
    create_influencer d s = (Except.ok none, s) := by
  unfold create_influencer
  rw [if_pos (by simp [h])]
  rfl

theorem create_influencer_nil_run (d : Dict) (db : DBState) (u : List String)
    (h : (["id", "username", "email", "password_hash"].all
        (fun f => hasKey d f)) = true) :
    create_influencer d ⟨db, [], u⟩ =
      (Except.ok (some (chatPageRow d)),
       ⟨{ db with influencers := db.influencers ++ [chatPageRow d] }, [], u⟩) := by
  unfold create_influencer
  rw [if_neg (by simp [h])]
  simp [chatPageRow, DBState.setTable, DBState.getTable]

theorem update_influencer_nil_run (iid : String) (upd : Dict) (db : DBState)
    (u : List String) (h : upd.isEmpty = false) :
    update_influencer iid upd ⟨db, [], u⟩ =
      (Except.ok true,
       ⟨{ db with
            influencers := applyUpdate db.influencers
              (dset upd "updated_at" (Val.str "now()")) "id" iid,
            sentUpdates := db.sentUpdates ++ [dset upd "updated_at" (Val.str "now()")] },
        [], u⟩) := by
  unfold update_influencer
  rw [if_neg (by simp [h])]
  simp [logSent, DBState.setTable, DBState.getTable, applyUpdate]

theorem update_influencer_cons_run (iid : String) (upd : Dict) (db : DBState)
    (b : Bool) (rest : List Bool) (u : List String) (h : upd.isEmpty = false) :
    update_influencer iid upd ⟨db, b :: rest, u⟩ =
      if b then
        (Except.ok false,
         ⟨logSent db (dset upd "updated_at" (Val.str "now()")), rest, u⟩)
      else
        (Except.ok true,
         ⟨{ db with
              influencers := applyUpdate db.influencers
                (dset upd "updated_at" (Val.str "now()")) "id" iid,
              sentUpdates := db.sentUpdates ++ [dset upd "updated_at" (Val.str "now()")] },
          rest, u⟩) := by
  unfold update_influencer
  rw [if_neg (by simp [h])]
  cases b <;> simp [logSent, DBState.setTable, DBState.getTable, applyUpdate]

theorem get_all_influencers_nil_run (db : DBState) (u : List String) :
    get_all_influencers ⟨db, [], u⟩ = (Except.ok db.influencers, ⟨db, [], u⟩) := rfl

theorem store_original_asset_nil_run (iid : String) (bytes : List Nat)
    (fname : String) (db : DBState) (u : List String) :
    store_original_asset iid bytes fname ⟨db, [], u⟩ =
      (Except.ok (some ("original_avatars/" ++ iid ++ "/" ++ fname)),
       ⟨{ db with
            storage := storeSet db.storage
              ("original_avatars/" ++ iid ++ "/" ++ fname) bytes,
            influencers := applyUpdate db.influencers
              (assetPayload ("original_avatars/" ++ iid ++ "/" ++ fname)) "id" iid,
            sentUpdates := db.sentUpdates
              ++ [assetPayload ("original_avatars/" ++ iid ++ "/" ++ fname)] },
        [], u⟩) := by
  unfold store_original_asset update_influencer
  simp [logSent, DBState.setTable, DBState.getTable, applyUpdate, assetPayload,
    dset, hasKey, List.find?]

theorem add_affiliate_link_nil_run_nodefault (db : DBState) (u0 : String)
    (us : List String) (iid p aid : String) (r0 : Dict)
    (hf : (db.influencers.filter
        (fun r => dget r "id" = some (Val.str iid))).head? = some r0)
    (ht : truthyOpt (dget r0 "affiliate_id") = false) :
    add_affiliate_link iid p aid ⟨db, [], u0 :: us⟩ =
      (Except.ok (some (linkRow u0 iid p aid)),
       ⟨{ db with
            affiliate_links := db.affiliate_links ++ [linkRow u0 iid p aid],
            influencers := applyUpdate db.influencers (affPayload aid) "id" iid,
            sentUpdates := db.sentUpdates ++ [affPayload aid] },
        [], us⟩) := by
  unfold add_affiliate_link get_influencer update_influencer
  simp only [pyTry_apply, bind_is_M_bind, M_bind_apply, M_pure_apply,
    freshUuid_cons, tableInsert_nil, tableSelectEq_nil, tableUpdateEq_nil,
    DBState.setTable, DBState.getTable]
  rw [hf]
  simp [ht, logSent, DBState.setTable, DBState.getTable, applyUpdate,
    affPayload, linkRow, dset, hasKey, List.find?]

theorem add_affiliate_link_nil_run_default (db : DBState) (u0 : String)
    (us : List String) (iid p aid : String) (r0 : Dict)
    (hf : (db.influencers.filter
        (fun r => dget r "id" = some (Val.str iid))).head? = some r0)
    (ht : truthyOpt (dget r0 "affiliate_id") = true) :
    add_affiliate_link iid p aid ⟨db, [], u0 :: us⟩ =
      (Except.ok (some (linkRow u0 iid p aid)),
       ⟨{ db with affiliate_links := db.affiliate_links ++ [linkRow u0 iid p aid] },
        [], us⟩) := by
  unfold add_affiliate_link get_influencer
  simp only [pyTry_apply, bind_is_M_bind, M_bind_apply, M_pure_apply,
    freshUuid_cons, tableInsert_nil, tableSelectEq_nil,
    DBState.setTable, DBState.getTable]
  rw [hf]
  simp [ht, linkRow]

/-! ## C2: first-write-wins for the default affiliate id -/

theorem add_affiliate_link_preserves_influencers (s : St) (iid p aid : String)
    (h : ∀ r0, (s.db.influencers.filter
        (fun r => dget r "id" = some (Val.str iid))).head? = some r0 →
      truthyOpt (dget r0 "affiliate_id") = true) :
    (add_affiliate_link iid p aid s).2.db.influencers = s.db.influencers := by
  rcases s with ⟨db, faults, us⟩
  rcases hr : (db.influencers.filter
      (fun r => dget r "id" = some (Val.str iid))).head? with _ | r0
  · unfold add_affiliate_link get_influencer
    cases us <;> rcases faults with _ | ⟨_ | _, _ | ⟨_ | _, r2⟩⟩ <;>
      simp [hr, DBState.setTable, DBState.getTable]
  · have ht := h r0 hr
    unfold add_affiliate_link get_influencer
    cases us <;> rcases faults with _ | ⟨_ | _, _ | ⟨_ | _, r2⟩⟩ <;>
      simp [hr, ht, DBState.setTable, DBState.getTable]

theorem add_twice_sequential_default (db : DBState) (u1 u2 : String)
    (us : List String) (iid p1 p2 A B : String) (r0 : Dict)
    (hf : db.influencers.filter (fun r => dget r "id" = some (Val.str iid)) = [r0])
    (ht : truthyOpt (dget r0 "affiliate_id") = false)
    (hA : A ≠ "") :
    (((add_affiliate_link iid p2 B
        (add_affiliate_link iid p1 A ⟨db, [], u1 :: u2 :: us⟩).2).2).db.influencers.filter
          (fun r => dget r "id" = some (Val.str iid))).map
        (fun r => dget r "affiliate_id") = [some (Val.str A)] := by
  have hr : (db.influencers.filter
      (fun r => dget r "id" = some (Val.str iid))).head? = some r0 := by
    rw [hf]; rfl
  rw [add_affiliate_link_nil_run_nodefault db u1 (u2 :: us) iid p1 A r0 hr ht]
  have hk : hasKey (affPayload A) "id" = false := rfl
  have hd1 : dget (dmerge r0 (affPayload A)) "affiliate_id" = some (Val.str A) := by
    apply dget_dmerge_nodup
    · have hkeys : (affPayload A).map Prod.fst = ["affiliate_id", "updated_at"] := rfl
      rw [hkeys]; decide
    · rfl
  have hf1 : (applyUpdate db.influencers (affPayload A) "id" iid).filter
      (fun r => dget r "id" = some (Val.str iid))
        = [dmerge r0 (affPayload A)] := by
    rw [filter_applyUpdate _ _ _ _ hk, hf]; rfl
  have hr1 : ((applyUpdate db.influencers (affPayload A) "id" iid).filter
      (fun r => dget r "id" = some (Val.str iid))).head?
        = some (dmerge r0 (affPayload A)) := by
    rw [hf1]; rfl
  have ht1 : truthyOpt (dget (dmerge r0 (affPayload A)) "affiliate_id") = true := by
    rw [hd1]; simp [truthyOpt, hA]
  rw [show ((Except.ok (some (linkRow u1 iid p1 A)) : Except Err (Option Dict)),
      (⟨{ db with
            affiliate_links := db.affiliate_links ++ [linkRow u1 iid p1 A],
            influencers := applyUpdate db.influencers (affPayload A) "id" iid,
            sentUpdates := db.sentUpdates ++ [affPayload A] },
        [], u2 :: us⟩ : St)).2
    = (⟨{ db with
            affiliate_links := db.affiliate_links ++ [linkRow u1 iid p1 A],
            influencers := applyUpdate db.influencers (affPayload A) "id" iid,
            sentUpdates := db.sentUpdates ++ [affPayload A] },
        [], u2 :: us⟩ : St) from rfl]
  rw [add_affiliate_link_nil_run_default _ u2 us iid p2 B (dmerge r0 (affPayload A))
    hr1 ht1]
  simp only []
  rw [hf1]
  simp [hd1]

/-- C2 counterexample: the claim as stated fails for an empty-string
affiliate id.  For the influencer `"I"` with no `affiliate_id`, calling
`add_affiliate_link` with affiliate id `A = ""` and then with `B = "B"`
leaves the influencer's `affiliate_id` equal to `"B"`, not `A`. -/
theorem claim_c2_counterexample :
    ((add_affiliate_link "I" "ebay" "B"
        (add_affiliate_link "I" "amazon" ""
          ⟨⟨[[("id", Val.str "I"), ("username", Val.str "alice")]],
            [], [], [], 0, []⟩, [], ["u1", "u2"]⟩).2).2.db.influencers.map
        (fun r => dget r "affiliate_id") = [some (Val.str "B")]) ∧
      Val.str "B" ≠ Val.str "" := by
  constructor
  · rfl
  · decide

/-- C2 (amended): first-write-wins for the default affiliate id holds for
non-empty affiliate ids.  (1) For an influencer whose `affiliate_id` is
unset, sequentially adding a link with non-empty affiliate id `A` and then
one with affiliate id `B` leaves the influencer's `affiliate_id` equal to
`Val.str A`; (2) once the stored default is truthy, no later
`add_affiliate_link` call — under any backend behaviour — modifies the
influencers table at all.  (The code tests the field with Python
truthiness, so an empty-string default still counts as unset and can be
overridden; hence the non-emptiness condition.) -/
theorem claim_c2_first_write_wins :
    (∀ (db : DBState) (u1 u2 : String) (us : List String)
       (iid p1 p2 A B : String) (r0 : Dict),
      db.influencers.filter (fun r => dget r "id" = some (Val.str iid)) = [r0] →
      truthyOpt (dget r0 "affiliate_id") = false →
      A ≠ "" →
      (((add_affiliate_link iid p2 B
          (add_affiliate_link iid p1 A ⟨db, [], u1 :: u2 :: us⟩).2).2).db.influencers.filter
            (fun r => dget r "id" = some (Val.str iid))).map
          (fun r => dget r "affiliate_id") = [some (Val.str A)]) ∧
    (∀ (s : St) (iid p aid : String),
      (∀ r0, (s.db.influencers.filter
          (fun r => dget r "id" = some (Val.str iid))).head? = some r0 →
        truthyOpt (dget r0 "affiliate_id") = true) →
      (add_affiliate_link iid p aid s).2.db.influencers = s.db.influencers) :=
  ⟨add_twice_sequential_default, add_affiliate_link_preserves_influencers⟩

/-- Witness for the amended C2 at a concrete input: influencer `"I"` with
no default, links `A = "A"` then `B = "B"`; and preservation for an
influencer whose default is already `"A"`. -/
theorem claim_c2_first_write_wins_witness :
    ((([[("id", Val.str "I")]] : List Dict).filter
        (fun r => dget r "id" = some (Val.str "I")) = [[("id", Val.str "I")]]) ∧
      truthyOpt (dget [("id", Val.str "I")] "affiliate_id") = false ∧
      ("A" : String) ≠ "" ∧
      (((add_affiliate_link "I" "ebay" "B"
          (add_affiliate_link "I" "amazon" "A"
            ⟨⟨[[("id", Val.str "I")]], [], [], [], 0, []⟩, [],
              ["u1", "u2"]⟩).2).2).db.influencers.filter
            (fun r => dget r "id" = some (Val.str "I"))).map
          (fun r => dget r "affiliate_id") = [some (Val.str "A")]) ∧
    ((∀ r0, (([[("id", Val.str "I"), ("affiliate_id", Val.str "A")]] : List Dict).filter
        (fun r => dget r "id" = some (Val.str "I"))).head? = some r0 →
        truthyOpt (dget r0 "affiliate_id") = true) ∧
      (add_affiliate_link "I" "ebay" "B"
        ⟨⟨[[("id", Val.str "I"), ("affiliate_id", Val.str "A")]], [], [], [], 0,
          []⟩, [], ["u9"]⟩).2.db.influencers
        = [[("id", Val.str "I"), ("affiliate_id", Val.str "A")]]) := by
  constructor
  · refine ⟨by decide, by decide, by decide, ?_⟩
    exact claim_c2_first_write_wins.1 ⟨[[("id", Val.str "I")]], [], [], [], 0, []⟩
      "u1" "u2" [] "I" "amazon" "ebay" "A" "B" [("id", Val.str "I")]
      (by decide) (by decide) (by decide)
  · refine ⟨?_, ?_⟩
    · intro r0 hr0
      have hh : (([[("id", Val.str "I"), ("affiliate_id", Val.str "A")]] : List Dict).filter
          (fun r => dget r "id" = some (Val.str "I"))).head?
            = some [("id", Val.str "I"), ("affiliate_id", Val.str "A")] := by decide
      rw [hh] at hr0
      injection hr0 with h
      rw [← h]; decide
    · exact claim_c2_first_write_wins.2
        ⟨⟨[[("id", Val.str "I"), ("affiliate_id", Val.str "A")]], [], [], [], 0,
          []⟩, [], ["u9"]⟩ "I" "ebay" "B"
        (by intro r0 hr0
            have hh : (([[("id", Val.str "I"), ("affiliate_id", Val.str "A")]] : List Dict).filter
                (fun r => dget r "id" = some (Val.str "I"))).head?
                  = some [("id", Val.str "I"), ("affiliate_id", Val.str "A")] := by decide
            rw [hh] at hr0
            injection hr0 with h
            rw [← h]; decide)

/-! ## C3: failure atomicity of add_affiliate_link -/

/-- C3 counterexample: `add_affiliate_link` can return the failure sentinel
`none` even though the affiliate-link row was inserted.  With influencer
`"I"` present, a schedule where the insert succeeds and the subsequent
influencer lookup raises makes the call return `none` while the
`affiliate_links` table has gained the new row. -/
theorem claim_c3_counterexample :
    ((add_affiliate_link "I" "amazon" "A"
        ⟨⟨[[("id", Val.str "I")]], [], [], [], 0, []⟩,
          [false, true], ["u1"]⟩).1 = Except.ok none) ∧
    (add_affiliate_link "I" "amazon" "A"
        ⟨⟨[[("id", Val.str "I")]], [], [], [], 0, []⟩,
          [false, true], ["u1"]⟩).2.db.affiliate_links
      ≠ (⟨⟨[[("id", Val.str "I")]], [], [], [], 0, []⟩,
          [false, true], ["u1"]⟩ : St).db.affiliate_links := by
  constructor
  · rfl
  · decide

/-- C3 (amended): if the initial affiliate-link insert raises, the call
returns `none` and the backend state is completely unchanged; but (per the
counterexample) a `none` return after a successful insert does not undo the
insert, so failure is atomic only for the first round trip. -/
theorem claim_c3_insert_failure_atomic (db : DBState) (rest : List Bool)
    (us : List String) (iid p aid : String) :
    (add_affiliate_link iid p aid ⟨db, true :: rest, us⟩).1 = Except.ok none ∧
    (add_affiliate_link iid p aid ⟨db, true :: rest, us⟩).2.db = db := by
  cases us <;> simp [add_affiliate_link]

/-- A stored asset path is never the empty string. -/
theorem asset_path_ne_empty (iid f : String) :
    ("original_avatars/" ++ iid ++ "/" ++ f) ≠ "" := by
  intro h
  have h2 := congrArg String.length h
  simp [String.length_append] at h2
  exact absurd h2.1.2 (by decide)

/-! ## C4: chat page path computed once at creation -/

theorem update_preserves_column (s : St) (iid : String) (upd : Dict)
    (h : hasKey upd "chat_page_url" = false) :
    ((update_influencer iid upd s).2.db.influencers).map
        (fun r => dget r "chat_page_url")
      = s.db.influencers.map (fun r => dget r "chat_page_url") := by
  have hk : hasKey (dset upd "updated_at" (Val.str "now()")) "chat_page_url" = false := by
    rw [hasKey_dset, h]
    simp
  rcases s with ⟨db, faults, u⟩
  by_cases he : upd.isEmpty
  · unfold update_influencer
    rw [if_pos he]
    rfl
  · rcases faults with _ | ⟨_ | _, rest⟩
    · rw [update_influencer_nil_run _ _ _ _ (by simp [he])]
      exact map_dget_applyUpdate _ _ _ _ _ hk
    · rw [update_influencer_cons_run _ _ _ _ _ _ (by simp [he])]
      simp only [if_neg (Bool.false_ne_true)]
      exact map_dget_applyUpdate _ _ _ _ _ hk
    · rw [update_influencer_cons_run _ _ _ _ _ _ (by simp [he])]
      simp [logSent]

/-- C4: confirmed.  (1) A successful `create_influencer` for a dict whose
username is `uname` stores the row with `chat_page_url` equal to
`"/chat/" ++ uname`, computed at creation time; (2) `update_influencer`
with any update map not touching `chat_page_url` (in particular a username
change) leaves every row's `chat_page_url` unchanged, for every backend
behaviour — the path is never recomputed. -/
theorem claim_c4_chat_page_url :
    (∀ (d : Dict) (db : DBState) (u : List String) (uname : String),
      (["id", "username", "email", "password_hash"].all
        (fun f => hasKey d f)) = true →
      dget d "username" = some (Val.str uname) →
      (create_influencer d ⟨db, [], u⟩).1 = Except.ok (some (chatPageRow d)) ∧
      dget (chatPageRow d) "chat_page_url"
        = some (Val.str ("/chat/" ++ uname)) ∧
      (create_influencer d ⟨db, [], u⟩).2.db.influencers
        = db.influencers ++ [chatPageRow d]) ∧
    (∀ (s : St) (iid : String) (upd : Dict),
      hasKey upd "chat_page_url" = false →
      ((update_influencer iid upd s).2.db.influencers).map
          (fun r => dget r "chat_page_url")
        = s.db.influencers.map (fun r => dget r "chat_page_url")) := by
  constructor
  · intro d db u uname hreq huser
    rw [create_influencer_nil_run _ _ _ hreq]
    refine ⟨rfl, ?_, rfl⟩
    unfold chatPageRow
    rw [dget_dset_self, huser]
    rfl
  · exact update_preserves_column

/-- Witness for C4: create influencer `alice`, then rename the username to
`bob`; the stored chat page path stays `/chat/alice`. -/
theorem claim_c4_chat_page_url_witness :
    ((["id", "username", "email", "password_hash"].all
        (fun f => hasKey [("id", Val.str "I"), ("username", Val.str "alice"),
          ("email", Val.str "a@b.c"), ("password_hash", Val.str "h")] f)) = true ∧
      dget [("id", Val.str "I"), ("username", Val.str "alice"),
        ("email", Val.str "a@b.c"), ("password_hash", Val.str "h")] "username"
        = some (Val.str "alice") ∧
      dget (chatPageRow [("id", Val.str "I"), ("username", Val.str "alice"),
        ("email", Val.str "a@b.c"), ("password_hash", Val.str "h")]) "chat_page_url"
        = some (Val.str ("/chat/" ++ "alice"))) ∧
    (hasKey [("username", Val.str "bob")] "chat_page_url" = false ∧
      ((update_influencer "I" [("username", Val.str "bob")]
          ⟨⟨[chatPageRow [("id", Val.str "I"), ("username", Val.str "alice"),
              ("email", Val.str "a@b.c"), ("password_hash", Val.str "h")]],
            [], [], [], 0, []⟩, [], []⟩).2.db.influencers).map
          (fun r => dget r "chat_page_url")
        = [some (Val.str "/chat/alice")]) := by
  constructor
  · refine ⟨by decide, by decide, ?_⟩
    exact ((claim_c4_chat_page_url.1
      [("id", Val.str "I"), ("username", Val.str "alice"),
        ("email", Val.str "a@b.c"), ("password_hash", Val.str "h")]
      ⟨[], [], [], [], 0, []⟩ [] "alice" (by decide) (by decide)).2).1
  · refine ⟨by decide, ?_⟩
    have := claim_c4_chat_page_url.2
      ⟨⟨[chatPageRow [("id", Val.str "I"), ("username", Val.str "alice"),
          ("email", Val.str "a@b.c"), ("password_hash", Val.str "h")]],
        [], [], [], 0, []⟩, [], []⟩ "I" [("username", Val.str "bob")] (by decide)
    rw [this]
    decide

/-! ## C5: update reports success whenever the call does not throw -/

/-- C5: for every non-empty update map and every backend table state —
including one where no row matches the given id — `update_influencer`
returns `true` when the backend call does not raise (empty or `false`-headed
fault schedule), and returns `false` exactly when the backend call raises. -/
theorem claim_c5_update_success (iid : String) (upd : Dict) (db : DBState)
    (rest : List Bool) (u : List String) (h : upd.isEmpty = false) :
    (update_influencer iid upd ⟨db, [], u⟩).1 = Except.ok true ∧
    (update_influencer iid upd ⟨db, false :: rest, u⟩).1 = Except.ok true ∧
    (update_influencer iid upd ⟨db, true :: rest, u⟩).1 = Except.ok false := by
  rw [update_influencer_nil_run _ _ _ _ h, update_influencer_cons_run _ _ _ _ _ _ h,
    update_influencer_cons_run _ _ _ _ _ _ h]
  simp

/-- Witness for C5 at a concrete input: updating the id `"missing"` on an
empty influencers table (zero rows match) still reports success. -/
theorem claim_c5_update_success_witness :
    ([("username", Val.str "x")] : Dict).isEmpty = false ∧
    (update_influencer "missing" [("username", Val.str "x")]
        ⟨⟨[], [], [], [], 0, []⟩, [], []⟩).1 = Except.ok true := by
  refine ⟨by decide, ?_⟩
  exact (claim_c5_update_success "missing" [("username", Val.str "x")]
    ⟨[], [], [], [], 0, []⟩ [] [] (by decide)).1

/-! ## C6: asset round-trip and overwrite -/

theorem get_original_asset_found_run (db : DBState) (u : List String)
    (iid P : String) (bytes : List Nat) (r1 : Dict)
    (hf : (db.influencers.filter
        (fun r => dget r "id" = some (Val.str iid))).head? = some r1)
    (hp : dget r1 "original_asset_path" = some (Val.str P))
    (hP : P ≠ "")
    (hb : (db.storage.find? (fun (q : String × List Nat) => q.1 = P)).map
        (fun (q : String × List Nat) => q.2) = some bytes) :
    (get_original_asset iid ⟨db, [], u⟩).1 = Except.ok (some bytes) := by
  unfold get_original_asset get_influencer
  simp only [pyTry_apply, bind_is_M_bind, M_bind_apply, M_pure_apply,
    tableSelectEq_nil, DBState.getTable]
  rw [hf]
  simp only [hp, truthyOpt, valToString, Option.getD_some]
  rw [if_neg (by simp [hP])]
  simp [logDownload, hb, hP]

/-- C6: confirmed (for an existing influencer).  Storing bytes `b1` under
`fname` for influencer `iid` succeeds with the deterministic path
`original_avatars/{iid}/{fname}`; retrieving then yields exactly `b1`.
Storing `b2` again for the same influencer and filename returns the very
same path — the write overwrites the object rather than versioning — and a
subsequent retrieve yields `b2`. -/
theorem claim_c6_asset_roundtrip (db : DBState) (u : List String)
    (iid fname : String) (b1 b2 : List Nat) (r0 : Dict)
    (hf : db.influencers.filter (fun r => dget r "id" = some (Val.str iid)) = [r0]) :
    ((store_original_asset iid b1 fname ⟨db, [], u⟩).1
        = Except.ok (some ("original_avatars/" ++ iid ++ "/" ++ fname))) ∧
    ((get_original_asset iid (store_original_asset iid b1 fname ⟨db, [], u⟩).2).1
        = Except.ok (some b1)) ∧
    ((store_original_asset iid b2 fname
        (store_original_asset iid b1 fname ⟨db, [], u⟩).2).1
        = Except.ok (some ("original_avatars/" ++ iid ++ "/" ++ fname))) ∧
    ((get_original_asset iid (store_original_asset iid b2 fname
        (store_original_asset iid b1 fname ⟨db, [], u⟩).2).2).1
        = Except.ok (some b2)) := by
  have hpne := asset_path_ne_empty iid fname
  have hk : hasKey (assetPayload ("original_avatars/" ++ iid ++ "/" ++ fname))
      "id" = false := rfl
  have hnd : ((assetPayload ("original_avatars/" ++ iid ++ "/" ++ fname)).map
      Prod.fst).Nodup := by
    have hkeys : (assetPayload ("original_avatars/" ++ iid ++ "/" ++ fname)).map
        Prod.fst = ["original_asset_path", "updated_at"] := rfl
    rw [hkeys]; decide
  have hgp : dget (assetPayload ("original_avatars/" ++ iid ++ "/" ++ fname))
      "original_asset_path"
      = some (Val.str ("original_avatars/" ++ iid ++ "/" ++ fname)) := rfl
  have e1 : (store_original_asset iid b1 fname ⟨db, [], u⟩).2
      = (⟨{ db with
            storage := storeSet db.storage
              ("original_avatars/" ++ iid ++ "/" ++ fname) b1,
            influencers := applyUpdate db.influencers
              (assetPayload ("original_avatars/" ++ iid ++ "/" ++ fname)) "id" iid,
            sentUpdates := db.sentUpdates
              ++ [assetPayload ("original_avatars/" ++ iid ++ "/" ++ fname)] },
          [], u⟩ : St) := by
    rw [store_original_asset_nil_run]
  have hf1 : (applyUpdate db.influencers
      (assetPayload ("original_avatars/" ++ iid ++ "/" ++ fname)) "id" iid).filter
        (fun r => dget r "id" = some (Val.str iid))
      = [dmerge r0 (assetPayload ("original_avatars/" ++ iid ++ "/" ++ fname))] := by
    rw [filter_applyUpdate _ _ _ _ hk, hf]; rfl
  have hh1 : ((applyUpdate db.influencers
      (assetPayload ("original_avatars/" ++ iid ++ "/" ++ fname)) "id" iid).filter
        (fun r => dget r "id" = some (Val.str iid))).head?
      = some (dmerge r0 (assetPayload ("original_avatars/" ++ iid ++ "/" ++ fname))) := by
    rw [hf1]; rfl
  have hd1 : dget (dmerge r0
      (assetPayload ("original_avatars/" ++ iid ++ "/" ++ fname)))
        "original_asset_path"
      = some (Val.str ("original_avatars/" ++ iid ++ "/" ++ fname)) :=
    dget_dmerge_nodup _ _ _ _ hnd hgp
  have hb1 : ((storeSet db.storage
      ("original_avatars/" ++ iid ++ "/" ++ fname) b1).find?
        (fun (q : String × List Nat) =>
          q.1 = "original_avatars/" ++ iid ++ "/" ++ fname)).map
        (fun (q : String × List Nat) => q.2) = some b1 :=
    storeSet_lookup_self _ _ _
  refine ⟨?_, ?_, ?_, ?_⟩
  · rw [store_original_asset_nil_run]
  · rw [e1]
    exact get_original_asset_found_run _ u iid _ b1 _ hh1 hd1 hpne hb1
  · rw [e1, store_original_asset_nil_run]
  · rw [e1, store_original_asset_nil_run]
    have hf2 : (applyUpdate (applyUpdate db.influencers
        (assetPayload ("original_avatars/" ++ iid ++ "/" ++ fname)) "id" iid)
        (assetPayload ("original_avatars/" ++ iid ++ "/" ++ fname)) "id" iid).filter
          (fun r => dget r "id" = some (Val.str iid))
        = [dmerge (dmerge r0
            (assetPayload ("original_avatars/" ++ iid ++ "/" ++ fname)))
            (assetPayload ("original_avatars/" ++ iid ++ "/" ++ fname))] := by
      rw [filter_applyUpdate _ _ _ _ hk, hf1]; rfl
    have hh2 : ((applyUpdate (applyUpdate db.influencers
        (assetPayload ("original_avatars/" ++ iid ++ "/" ++ fname)) "id" iid)
        (assetPayload ("original_avatars/" ++ iid ++ "/" ++ fname)) "id" iid).filter
          (fun r => dget r "id" = some (Val.str iid))).head?
        = some (dmerge (dmerge r0
            (assetPayload ("original_avatars/" ++ iid ++ "/" ++ fname)))
            (assetPayload ("original_avatars/" ++ iid ++ "/" ++ fname))) := by
      rw [hf2]; rfl
    have hd2 : dget (dmerge (dmerge r0
        (assetPayload ("original_avatars/" ++ iid ++ "/" ++ fname)))
        (assetPayload ("original_avatars/" ++ iid ++ "/" ++ fname)))
          "original_asset_path"
        = some (Val.str ("original_avatars/" ++ iid ++ "/" ++ fname)) :=
      dget_dmerge_nodup _ _ _ _ hnd hgp
    have hb2 : ((storeSet (storeSet db.storage
        ("original_avatars/" ++ iid ++ "/" ++ fname) b1)
        ("original_avatars/" ++ iid ++ "/" ++ fname) b2).find?
          (fun (q : String × List Nat) =>
            q.1 = "original_avatars/" ++ iid ++ "/" ++ fname)).map
          (fun (q : String × List Nat) => q.2) = some b2 :=
      storeSet_lookup_self _ _ _
    exact get_original_asset_found_run _ u iid _ b2 _ hh2 hd2 hpne hb2

/-- Witness for C6 at a concrete input: influencer `"I"`, bytes `[97, 98, 99]`
then `[1, 2]`, filename `avatar.png`. -/
theorem claim_c6_asset_roundtrip_witness :
    (([[("id", Val.str "I")]] : List Dict).filter
        (fun r => dget r "id" = some (Val.str "I")) = [[("id", Val.str "I")]]) ∧
    ((get_original_asset "I" (store_original_asset "I" [97, 98, 99] "avatar.png"
        ⟨⟨[[("id", Val.str "I")]], [], [], [], 0, []⟩, [], []⟩).2).1
      = Except.ok (some [97, 98, 99])) ∧
    ((get_original_asset "I" (store_original_asset "I" [1, 2] "avatar.png"
        (store_original_asset "I" [97, 98, 99] "avatar.png"
          ⟨⟨[[("id", Val.str "I")]], [], [], [], 0, []⟩, [], []⟩).2).2).1
      = Except.ok (some [1, 2])) := by
  refine ⟨by decide, ?_, ?_⟩
  · exact (claim_c6_asset_roundtrip ⟨[[("id", Val.str "I")]], [], [], [], 0, []⟩
      [] "I" "avatar.png" [97, 98, 99] [1, 2] [("id", Val.str "I")]
      (by decide)).2.1
  · exact (claim_c6_asset_roundtrip ⟨[[("id", Val.str "I")]], [], [], [], 0, []⟩
      [] "I" "avatar.png" [97, 98, 99] [1, 2] [("id", Val.str "I")]
      (by decide)).2.2.2

/-! ## C7: create_influencer required fields and error policy -/

/-- C7: `create_influencer` returns `none` leaving the state untouched when
any of the four required fields is missing; when all are present it returns
the inserted row (the input plus the derived chat page) on a fault-free
backend call, returns `none` when the backend raises, and never propagates
an exception. -/
theorem claim_c7_create_required (d : Dict) (db : DBState) (u : List String)
    (rest : List Bool) (s : St) :
    ((["id", "username", "email", "password_hash"].all
        (fun f => hasKey d f)) = false → create_influencer d s = (Except.ok none, s)) ∧
    ((["id", "username", "email", "password_hash"].all
        (fun f => hasKey d f)) = true →
      (create_influencer d ⟨db, [], u⟩).1 = Except.ok (some (chatPageRow d)) ∧
      (create_influencer d ⟨db, [], u⟩).2.db.influencers
        = db.influencers ++ [chatPageRow d] ∧
      (create_influencer d ⟨db, true :: rest, u⟩).1 = Except.ok none) ∧
    isOkB (create_influencer d s).1 = true := by
  refine ⟨fun h => create_influencer_missing_run d s h, fun h => ?_,
    create_influencer_ok s d⟩
  rw [create_influencer_nil_run _ _ _ h]
  refine ⟨rfl, rfl, ?_⟩
  unfold create_influencer
  rw [if_neg (by simp [h])]
  simp

/-- Witness for C7: a dict missing `email` is rejected without any state
change; the full `alice` dict is inserted with its chat page. -/
theorem claim_c7_create_required_witness :
    ((["id", "username", "email", "password_hash"].all
        (fun f => hasKey [("id", Val.str "I"), ("username", Val.str "alice")] f))
      = false ∧
      create_influencer [("id", Val.str "I"), ("username", Val.str "alice")]
          ⟨⟨[], [], [], [], 0, []⟩, [], []⟩
        = (Except.ok none, ⟨⟨[], [], [], [], 0, []⟩, [], []⟩)) ∧
    ((["id", "username", "email", "password_hash"].all
        (fun f => hasKey [("id", Val.str "I"), ("username", Val.str "alice"),
          ("email", Val.str "a@b.c"), ("password_hash", Val.str "h")] f)) = true ∧
      (create_influencer [("id", Val.str "I"), ("username", Val.str "alice"),
          ("email", Val.str "a@b.c"), ("password_hash", Val.str "h")]
          ⟨⟨[], [], [], [], 0, []⟩, [], []⟩).1
        = Except.ok (some (chatPageRow [("id", Val.str "I"),
            ("username", Val.str "alice"), ("email", Val.str "a@b.c"),
            ("password_hash", Val.str "h")]))) := by
  constructor
  · refine ⟨by decide, ?_⟩
    exact (claim_c7_create_required [("id", Val.str "I"), ("username", Val.str "alice")]
      ⟨[], [], [], [], 0, []⟩ [] [] ⟨⟨[], [], [], [], 0, []⟩, [], []⟩).1 (by decide)
  · refine ⟨by decide, ?_⟩
    exact ((claim_c7_create_required [("id", Val.str "I"), ("username", Val.str "alice"),
        ("email", Val.str "a@b.c"), ("password_hash", Val.str "h")]
      ⟨[], [], [], [], 0, []⟩ [] [] ⟨⟨[], [], [], [], 0, []⟩, [], []⟩).2.1 (by decide)).1

/-! ## C8: missing asset path means no download request -/

/-- C8: if every influencer row matching the id (in particular, none at
all) has no truthy `original_asset_path`, then `get_original_asset` returns
`none` under every backend behaviour and the number of blob-download
requests issued is unchanged — the blob store is never contacted. -/
theorem claim_c8_missing_asset (s : St) (iid : String)
    (h : ∀ r0, (s.db.influencers.filter
        (fun r => dget r "id" = some (Val.str iid))).head? = some r0 →
      truthyOpt (dget r0 "original_asset_path") = false) :
    (get_original_asset iid s).1 = Except.ok none ∧
    (get_original_asset iid s).2.db.downloads = s.db.downloads := by
  rcases s with ⟨db, faults, us⟩
  rcases hr : (db.influencers.filter
      (fun r => dget r "id" = some (Val.str iid))).head? with _ | r0
  · unfold get_original_asset get_influencer
    rcases faults with _ | ⟨_ | _, rest⟩ <;>
      simp [hr, DBState.getTable]
  · have ht := h r0 hr
    unfold get_original_asset get_influencer
    rcases faults with _ | ⟨_ | _, rest⟩ <;>
      simp [hr, ht, DBState.getTable]

/-- Witness for C8: influencer `"I"` exists but has no stored path; the
retrieve returns `none` and the download counter stays at `0`. -/
theorem claim_c8_missing_asset_witness :
    (∀ r0, (([[("id", Val.str "I")]] : List Dict).filter
        (fun r => dget r "id" = some (Val.str "I"))).head? = some r0 →
      truthyOpt (dget r0 "original_asset_path") = false) ∧
    (get_original_asset "I"
        ⟨⟨[[("id", Val.str "I")]], [], [], [], 0, []⟩, [], []⟩).1 = Except.ok none ∧
    (get_original_asset "I"
        ⟨⟨[[("id", Val.str "I")]], [], [], [], 0, []⟩, [], []⟩).2.db.downloads = 0 := by
  have hh : ∀ r0, (([[("id", Val.str "I")]] : List Dict).filter
      (fun r => dget r "id" = some (Val.str "I"))).head? = some r0 →
      truthyOpt (dget r0 "original_asset_path") = false := by
    intro r0 hr0
    have he : (([[("id", Val.str "I")]] : List Dict).filter
        (fun r => dget r "id" = some (Val.str "I"))).head?
          = some [("id", Val.str "I")] := by decide
    rw [he] at hr0
    injection hr0 with h
    rw [← h]; decide
  exact ⟨hh,
    (claim_c8_missing_asset ⟨⟨[[("id", Val.str "I")]], [], [], [], 0, []⟩, [], []⟩
      "I" hh).1,
    (claim_c8_missing_asset ⟨⟨[[("id", Val.str "I")]], [], [], [], 0, []⟩, [], []⟩
      "I" hh).2⟩

/-! ## C9: list-all returns all rows, or the empty list on error -/

/-- C9: `get_all_influencers` returns the full influencers table whenever
the backend call does not raise, returns the empty list (never a `none`,
which its type excludes, and never a propagated exception) when the
backend raises. -/
theorem claim_c9_list_all (db : DBState) (rest : List Bool) (u : List String) :
    (get_all_influencers ⟨db, [], u⟩).1 = Except.ok db.influencers ∧
    (get_all_influencers ⟨db, false :: rest, u⟩).1 = Except.ok db.influencers ∧
    (get_all_influencers ⟨db, true :: rest, u⟩).1 = Except.ok [] ∧
    (∀ s, isOkB (get_all_influencers s).1 = true) := by
  refine ⟨rfl, ?_, ?_, fun s => pyTry_const_handler_ok _ _ _⟩
  · simp [get_all_influencers, DBState.getTable]
  · simp [get_all_influencers]

/-! ## C10: updated_at is injected into the caller's map -/

theorem not_mem_keys_of_hasKey_false (d : Dict) (k : String)
    (h : hasKey d k = false) : k ∉ d.map Prod.fst := by
  rw [hasKey_eq_keys_contains, List.any_eq_false] at h
  intro hm
  exact (h k hm) (by simp)

theorem nodup_keys_dset (d : Dict) (k : String) (v : Val)
    (h : (d.map Prod.fst).Nodup) : ((dset d k v).map Prod.fst).Nodup := by
  unfold dset
  by_cases hk : hasKey d k
  · rw [if_pos hk, keys_mapSet]
    exact h
  · have hk' : hasKey d k = false := by simpa using hk
    rw [if_neg hk, List.map_append]
    refine List.Nodup.append h (by simp) ?_
    intro a ha hb
    rw [List.map_singleton, List.mem_singleton] at hb
    subst hb
    exact not_mem_keys_of_hasKey_false d a hk' ha

/-- C10: for every non-empty update map (a Python dict, so with distinct
keys), `update_influencer` mutates the caller's dict object by setting
`updated_at` to `'now()'` — `callerUpdatesAfter` is the caller's map after
the call — leaving the caller's other keys untouched, and sends exactly
that mutated map to the backend (under every backend behaviour, the raise
included, since the mutation precedes the round trip).  Consequently, on a
fault-free run every matched row receives the `updated_at` column in
addition to the caller's fields. -/
theorem claim_c10_updated_at_mutation (s : St) (iid : String) (upd : Dict)
    (h : upd.isEmpty = false) (hn : (upd.map Prod.fst).Nodup) :
    callerUpdatesAfter upd = dset upd "updated_at" (Val.str "now()") ∧
    dget (callerUpdatesAfter upd) "updated_at" = some (Val.str "now()") ∧
    (∀ k, k ≠ "updated_at" → dget (callerUpdatesAfter upd) k = dget upd k) ∧
    ((update_influencer iid upd s).2.db.sentUpdates
      = s.db.sentUpdates ++ [dset upd "updated_at" (Val.str "now()")]) ∧
    ((update_influencer iid upd ⟨s.db, [], s.uuids⟩).2.db.influencers
      = applyUpdate s.db.influencers (dset upd "updated_at" (Val.str "now()"))
          "id" iid) ∧
    (∀ r0, dget (dmerge r0 (dset upd "updated_at" (Val.str "now()"))) "updated_at"
      = some (Val.str "now()")) := by
  have hc : callerUpdatesAfter upd = dset upd "updated_at" (Val.str "now()") := by
    simp [callerUpdatesAfter, h]
  refine ⟨hc, ?_, ?_, ?_, ?_, ?_⟩
  · rw [hc]
    exact dget_dset_self _ _ _
  · intro k hk
    rw [hc]
    exact dget_dset_ne _ _ _ _ hk
  · rcases s with ⟨db, faults, us⟩
    rcases faults with _ | ⟨b, rest⟩
    · rw [update_influencer_nil_run _ _ _ _ h]
    · rw [update_influencer_cons_run _ _ _ _ _ _ h]
      cases b <;> simp [logSent]
  · rw [update_influencer_nil_run _ _ _ _ h]
  · intro r0
    exact dget_dmerge_nodup _ _ _ _ (nodup_keys_dset _ _ _ hn)
      (dget_dset_self _ _ _)

/-- Witness for C10 at a concrete input: the caller's map
`{'username': 'x'}` gains `updated_at = 'now()'` and exactly that map is
recorded as sent. -/
theorem claim_c10_updated_at_mutation_witness :
    (([("username", Val.str "x")] : Dict).isEmpty = false ∧
      (([("username", Val.str "x")] : Dict).map Prod.fst).Nodup) ∧
    callerUpdatesAfter [("username", Val.str "x")]
      = [("username", Val.str "x"), ("updated_at", Val.str "now()")] ∧
    (update_influencer "I" [("username", Val.str "x")]
        ⟨⟨[], [], [], [], 0, []⟩, [], []⟩).2.db.sentUpdates
      = [[("username", Val.str "x"), ("updated_at", Val.str "now()")]] := by
  refine ⟨⟨by decide, by decide⟩, ?_, ?_⟩
  · have := (claim_c10_updated_at_mutation ⟨⟨[], [], [], [], 0, []⟩, [], []⟩
      "I" [("username", Val.str "x")] (by decide) (by decide)).1
    rw [this]
    decide
  · have := (claim_c10_updated_at_mutation ⟨⟨[], [], [], [], 0, []⟩, [], []⟩
      "I" [("username", Val.str "x")] (by decide) (by decide)).2.2.2.1
    rw [this]
    decide
